import Mathlib

/-!
Verification of the cache gate and build orchestration of
`src/http/research-orbits/src/pages/AllPapers.tsx` (ResearchOrbit).

The embedding models, line by line:
  * the insertion-order deduplication `Array.from(new Set(dois))` used to
    build `seedDois` (line 80) as `jsSetDedup`;
  * the cache signature `seedDois.slice().sort().join("|")` (line 85) as
    `cacheSigOf` (JS default sort is lexicographic on the string elements);
  * `tryLoadCache` (lines 89-99): `localStorage.getItem` + `JSON.parse`
    outcomes are modelled by `StoredCell` (`missing` = `getItem` returned
    null, `corrupt` = `JSON.parse` threw, `parsed sig graph` = a parsed
    object whose `sig` field is a string or not and whose `graph` field is
    present or not).  The truthiness test `graph?.nodes && graph?.links`
    is modelled on array-or-absent fields: a present array (`some`) is
    truthy in JS even when empty, an absent field (`none`) is falsy.
    The `try ... catch { return null }` makes the operation total, which the
    embedding reflects by returning `Option Graph`;
  * `saveCache` (lines 101-107): `localStorage.setItem` may throw
    (quota / private mode), modelled by the `storeFails` flag; the catch
    swallows the failure and leaves the store unchanged;
  * `buildOrLoad` (lines 110-144): the asynchronous crawl
    `buildCitationGraph` lives in `lib/citationGraph.ts`, outside the
    material under verification, so its outcome is passed in as a value of
    `Except (Option String) Graph` (`Except.error m` = the promise rejected
    with an exception whose `message` is `m`, `none` standing for a missing
    or non-string `message`).  The result records the values passed to
    `setGraph` / `setGraphErr`, the resulting store cell, and how many
    times the cache was consulted, the crawler invoked, and the store
    attempted.
-/

/-- A node of the output graph shape `{id, title, depth}` described by the
design (section 6). -/
structure NodeV where
  id : String
  title : String
  depth : Nat
deriving DecidableEq, Repr

/-- A directed citation link `{source, target}`. -/
structure LinkV where
  source : String
  target : String
deriving DecidableEq, Repr

/-- The graph value built by the crawler and consumed by the UI. -/
structure Graph where
  nodes : List NodeV
  links : List LinkV
deriving DecidableEq, Repr

/-- Models `Array.from(new Set(dois))` (AllPapers.tsx line 80): a JS `Set`
iterates in insertion order, so this is deduplication keeping the first
occurrence of each element. -/
def jsSetDedup (l : List String) : List String :=
  l.foldl (fun acc x => if x ∈ acc then acc else acc ++ [x]) []

/-- The comparison used by the JS default `Array.prototype.sort()` on
strings: lexicographic on the underlying character sequences. -/
def strLeb (a b : String) : Prop := a.data ≤ b.data

instance : DecidableRel strLeb := fun a b => by unfold strLeb; infer_instance

instance : IsTotal String strLeb := ⟨fun a b => le_total a.data b.data⟩

instance : IsTrans String strLeb := ⟨fun _ _ _ h h2 => le_trans h h2⟩

instance : IsAntisymm String strLeb :=
  ⟨fun a b h h2 => by
    cases a; cases b
    exact congrArg String.mk (le_antisymm h h2)⟩

/-- Models `seedDois.slice().sort().join("|")` (line 85): sort the component
state `seedDois` lexicographically and join with `"|"`.  `slice()` copies,
so the operation is pure. -/
def cacheSigOf (seedDois : List String) : String :=
  String.intercalate "|" (List.insertionSort strLeb seedDois)

/-- The whole signature pipeline applied to a raw identifier list: the
deduplication performed while building `seedDois` (line 80) followed by
`cacheSig` (line 85). -/
def signatureOf (l : List String) : String :=
  cacheSigOf (jsSetDedup l)

/-- The `graph` field of a parsed cache payload.  `none` in a field models
the field being absent or otherwise falsy under `graph?.nodes` /
`graph?.links`; `some` models a present array, which in JS is truthy even
when the array is empty. -/
structure StoredGraph where
  nodes : Option (List NodeV)
  links : Option (List LinkV)
deriving DecidableEq, Repr

/-- What `localStorage.getItem(CACHE_KEY)` followed by `JSON.parse` can
produce inside `tryLoadCache`. -/
inductive StoredCell where
  | missing
  | corrupt
  | parsed (sig : Option String) (graph : Option StoredGraph)
deriving DecidableEq, Repr

/-- Models `tryLoadCache` (lines 89-99): return the stored graph when the
stored `sig` strictly equals the current `cacheSig` and both `graph?.nodes`
and `graph?.links` are truthy; every other outcome, including a missing
entry and a parse failure caught by the `catch`, yields `null`. -/
def tryLoadCache (cell : StoredCell) (cacheSig : String) : Option Graph :=
  match cell with
  | .parsed (some s) (some g) =>
    if s = cacheSig ∧ g.nodes.isSome ∧ g.links.isSome then
      some ⟨g.nodes.getD [], g.links.getD []⟩
    else none
  | _ => none

/-- Models `saveCache` (lines 101-107): `localStorage.setItem` of
`JSON.stringify({sig: cacheSig, graph: g})`.  When the write throws
(`storeFails = true`) the catch ignores the failure and the store keeps its
previous contents. -/
def saveCache (storeFails : Bool) (cell : StoredCell) (cacheSig : String)
    (g : Graph) : StoredCell :=
  if storeFails then cell
  else .parsed (some cacheSig) (some ⟨some g.nodes, some g.links⟩)

/-- The fallback error message of line 140. -/
def defaultBuildErr : String := "Failed to build citation network"

/-- Models `e?.message || "Failed to build citation network"` (line 140):
a missing or empty message falls back to the default text. -/
def displayMsg (m : Option String) : String :=
  match m with
  | some s => if s = "" then defaultBuildErr else s
  | none => defaultBuildErr

/-- Observable outcome of one `buildOrLoad` run: the values the run leaves
in `graph` / `graphErr`, the resulting store cell, and counters for cache
reads, crawler invocations and store attempts. -/
structure BuildResult where
  graph : Option Graph
  graphErr : Option String
  store : StoredCell
  cacheLoads : Nat
  crawlCalls : Nat
  storeAttempts : Nat
deriving DecidableEq, Repr

/-- The crawl branch of `buildOrLoad` (lines 128-143): on success set the
graph and save the cache; on failure keep the previous graph state (no
`setGraph` call happens), record the message, and leave the store alone. -/
def runCrawl (prevGraph : Option Graph) (store : StoredCell)
    (storeFails : Bool) (csig : String) (loads : Nat)
    (crawl : Except (Option String) Graph) : BuildResult :=
  match crawl with
  | .ok g =>
    { graph := some g, graphErr := none,
      store := saveCache storeFails store csig g,
      cacheLoads := loads, crawlCalls := 1, storeAttempts := 1 }
  | .error m =>
    { graph := prevGraph, graphErr := some (displayMsg m),
      store := store, cacheLoads := loads, crawlCalls := 1,
      storeAttempts := 0 }

/-- Models `buildOrLoad` (lines 110-144).  `seedDois` is the component
state (already trimmed and deduplicated by the memo of lines 73-81), so the
signature of line 85 is `cacheSigOf seedDois`.  Empty seeds short-circuit:
`setGraph(null); setGraphErr(null); return`.  Otherwise, unless `force` is
set, a cache hit is returned directly; a miss or a forced build runs the
crawl. -/
def buildOrLoad (seedDois : List String) (force : Bool)
    (prevGraph : Option Graph) (store : StoredCell) (storeFails : Bool)
    (crawl : Except (Option String) Graph) : BuildResult :=
  if seedDois.isEmpty then
    { graph := none, graphErr := none, store := store,
      cacheLoads := 0, crawlCalls := 0, storeAttempts := 0 }
  else
    let csig := cacheSigOf seedDois
    if force then runCrawl prevGraph store storeFails csig 0 crawl
    else
      match tryLoadCache store csig with
      | some cached =>
        { graph := some cached, graphErr := none, store := store,
          cacheLoads := 1, crawlCalls := 0, storeAttempts := 0 }
      | none => runCrawl prevGraph store storeFails csig 1 crawl

/-! ## Helper lemmas -/

theorem jsSetDedup_aux_mem (l : List String) :
    ∀ (acc : List String) (x : String),
      (x ∈ l.foldl (fun a b => if b ∈ a then a else a ++ [b]) acc) ↔
        x ∈ acc ∨ x ∈ l := by
  induction l with
  | nil => intro acc x; simp
  | cons a l ih =>
    intro acc x
    simp only [List.foldl_cons, List.mem_cons]
    by_cases ha : a ∈ acc
    · rw [if_pos ha, ih]
      constructor
      · rintro (h | h)
        · exact Or.inl h
        · exact Or.inr (Or.inr h)
      · rintro (h | h | h)
        · exact Or.inl h
        · exact Or.inl (h ▸ ha)
        · exact Or.inr h
    · rw [if_neg ha, ih]
      simp only [List.mem_append, List.mem_singleton]
      tauto

theorem jsSetDedup_aux_nodup (l : List String) :
    ∀ acc : List String, acc.Nodup →
      (l.foldl (fun a b => if b ∈ a then a else a ++ [b]) acc).Nodup := by
  induction l with
  | nil => intro acc h; simpa using h
  | cons a l ih =>
    intro acc h
    simp only [List.foldl_cons]
    by_cases ha : a ∈ acc
    · rw [if_pos ha]; exact ih acc h
    · rw [if_neg ha]
      refine ih _ ?_
      simp [List.nodup_append, h, ha]

theorem jsSetDedup_mem (l : List String) (x : String) :
    x ∈ jsSetDedup l ↔ x ∈ l := by
  unfold jsSetDedup
  rw [jsSetDedup_aux_mem]
  simp

theorem jsSetDedup_nodup (l : List String) : (jsSetDedup l).Nodup :=
  jsSetDedup_aux_nodup l [] List.nodup_nil

/-! ## Claims -/

/-- C1: for all seed-identifier lists that are set-equal (same elements, any
order, any duplication), the signature pipeline (dedup via the Set of
line 80, then sort and join of line 85) produces the same signature
string. -/
theorem C1_signature_respects_set_equality (S1 S2 : List String)
    (h : ∀ x, x ∈ S1 ↔ x ∈ S2) : signatureOf S1 = signatureOf S2 := by
  unfold signatureOf cacheSigOf
  congr 1
  have hperm : (jsSetDedup S1).Perm (jsSetDedup S2) := by
    rw [List.perm_ext_iff_of_nodup (jsSetDedup_nodup S1) (jsSetDedup_nodup S2)]
    intro x
    rw [jsSetDedup_mem, jsSetDedup_mem]
    exact h x
  exact List.eq_of_perm_of_sorted
    (((List.perm_insertionSort strLeb _).trans hperm).trans
      (List.perm_insertionSort strLeb _).symm)
    (List.sorted_insertionSort strLeb _) (List.sorted_insertionSort strLeb _)

/-- Concrete instance of C1: `["b","a","a"]` and `["a","b"]` are set-equal
and get the same signature. -/
theorem C1_signature_respects_set_equality_witness :
    signatureOf ["b", "a", "a"] = signatureOf ["a", "b"] :=
  C1_signature_respects_set_equality ["b", "a", "a"] ["a", "b"] (by
    intro x
    simp only [List.mem_cons, List.not_mem_nil, or_false]
    tauto)

/-- C2: the cache load returns a graph only when the stored entry has
exactly the shape `{sig, graph}` with `sig` equal to the current signature
and both containers present, and the returned graph is the stored one;
a missing entry and a parse failure yield `null`.  The operation is a total
function into `Option Graph` (the surrounding `try/catch` never lets an
error escape). -/
theorem C2_load_only_on_exact_match (cell : StoredCell) (csig : String)
    (g : Graph) (h : tryLoadCache cell csig = some g) :
    (∃ ns ls, cell = StoredCell.parsed (some csig) (some ⟨some ns, some ls⟩)
      ∧ g = ⟨ns, ls⟩)
    ∧ tryLoadCache StoredCell.missing csig = none
    ∧ tryLoadCache StoredCell.corrupt csig = none := by
  refine ⟨?_, rfl, rfl⟩
  match cell with
  | .missing => simp [tryLoadCache] at h
  | .corrupt => simp [tryLoadCache] at h
  | .parsed none graph => simp [tryLoadCache] at h
  | .parsed (some s) none => simp [tryLoadCache] at h
  | .parsed (some s) (some sg) =>
    simp only [tryLoadCache] at h
    by_cases hc : s = csig ∧ sg.nodes.isSome ∧ sg.links.isSome
    · obtain ⟨hs, hn, hl⟩ := hc
      obtain ⟨ns, hns⟩ := Option.isSome_iff_exists.mp hn
      obtain ⟨ls, hls⟩ := Option.isSome_iff_exists.mp hl
      refine ⟨ns, ls, ?_, ?_⟩
      · have hsg : sg = ⟨some ns, some ls⟩ := by
          cases sg
          simp only [StoredGraph.mk.injEq]
          exact ⟨by simpa using hns, by simpa using hls⟩
        rw [hs, hsg]
      · rw [if_pos ⟨hs, hn, hl⟩] at h
        simp only [Option.some.injEq] at h
        rw [← h, hns, hls]
        rfl
    · rw [if_neg hc] at h
      exact absurd h (by simp)

/-- Concrete instance of C2: a well-shaped stored entry with the matching
signature is characterised, and missing/corrupt entries load as `null`. -/
theorem C2_load_only_on_exact_match_witness :
    (∃ ns ls,
        StoredCell.parsed (some "sigX") (some ⟨some [], some []⟩)
          = StoredCell.parsed (some "sigX") (some ⟨some ns, some ls⟩)
        ∧ (⟨[], []⟩ : Graph) = ⟨ns, ls⟩)
    ∧ tryLoadCache StoredCell.missing "sigX" = none
    ∧ tryLoadCache StoredCell.corrupt "sigX" = none :=
  C2_load_only_on_exact_match
    (StoredCell.parsed (some "sigX") (some ⟨some [], some []⟩)) "sigX"
    ⟨[], []⟩ (by decide)

/-- C3 counterexample: a matching-signature payload whose node and link
containers are both present but EMPTY is returned as a cached graph, not
ignored — in JS an empty array is truthy, so `graph?.nodes && graph?.links`
passes.  This contradicts the claim that empty containers fail structural
validation. -/
theorem C3_counterexample :
    tryLoadCache
        (StoredCell.parsed (some "sigY") (some ⟨some [], some []⟩)) "sigY"
      = some ⟨[], []⟩
    ∧ tryLoadCache
        (StoredCell.parsed (some "sigY") (some ⟨some [], some []⟩)) "sigY"
      ≠ none := by
  refine ⟨by decide, by decide⟩

/-- C3 amended: structural validation only requires the `nodes` and `links`
fields of the stored graph to be present (truthy); a matching-signature
entry with present containers is returned even when they are empty, and the
load yields `null` exactly when one of the containers is absent. -/
theorem C3_validation_is_presence_only (csig : String) (ns : List NodeV)
    (ls : List LinkV) (olinks : Option (List LinkV))
    (onodes : Option (List NodeV)) :
    tryLoadCache (StoredCell.parsed (some csig) (some ⟨some ns, some ls⟩))
        csig = some ⟨ns, ls⟩
    ∧ tryLoadCache (StoredCell.parsed (some csig) (some ⟨none, olinks⟩))
        csig = none
    ∧ tryLoadCache (StoredCell.parsed (some csig) (some ⟨onodes, none⟩))
        csig = none := by
  refine ⟨?_, ?_, ?_⟩
  · simp [tryLoadCache]
  · simp [tryLoadCache]
  · simp [tryLoadCache]

theorem tryLoadCache_saveCache (cell : StoredCell) (csig : String)
    (g : Graph) : tryLoadCache (saveCache false cell csig g) csig = some g := by
  simp [saveCache, tryLoadCache]

theorem buildOrLoad_of_ne_nil (seeds : List String) (force : Bool)
    (prevGraph : Option Graph) (store : StoredCell) (storeFails : Bool)
    (crawl : Except (Option String) Graph) (hne : seeds ≠ []) :
    buildOrLoad seeds force prevGraph store storeFails crawl =
      if force then
        runCrawl prevGraph store storeFails (cacheSigOf seeds) 0 crawl
      else
        match tryLoadCache store (cacheSigOf seeds) with
        | some cached =>
          { graph := some cached, graphErr := none, store := store,
            cacheLoads := 1, crawlCalls := 0, storeAttempts := 0 }
        | none =>
          runCrawl prevGraph store storeFails (cacheSigOf seeds) 1 crawl := by
  unfold buildOrLoad
  rw [if_neg (by simpa [List.isEmpty_iff] using hne)]

/-- C4: when the crawl actually runs (non-empty seeds, and either a forced
build or a cache miss) and succeeds, a failing `localStorage.setItem`
(`storeFails = true`) is silently swallowed: the build still completes with
the freshly built graph, no error is reported, and the store keeps its
previous contents. -/
theorem C4_store_failure_swallowed (seeds : List String) (force : Bool)
    (prev : Option Graph) (cell : StoredCell) (g : Graph)
    (hne : seeds ≠ [])
    (hrun : force = true ∨ tryLoadCache cell (cacheSigOf seeds) = none) :
    (buildOrLoad seeds force prev cell true (Except.ok g)).graph = some g
    ∧ (buildOrLoad seeds force prev cell true (Except.ok g)).graphErr = none
    ∧ (buildOrLoad seeds force prev cell true (Except.ok g)).store = cell := by
  rw [buildOrLoad_of_ne_nil seeds force prev cell true (Except.ok g) hne]
  cases force with
  | true => simp [runCrawl, saveCache]
  | false =>
    rcases hrun with hrun | hrun
    · exact absurd hrun (by simp)
    · rw [if_neg (by simp), hrun]
      simp [runCrawl, saveCache]

/-- Concrete instance of C4: a forced build over a failing store still
succeeds with the fresh graph and leaves the store untouched. -/
theorem C4_store_failure_swallowed_witness :
    (buildOrLoad ["A"] true none StoredCell.missing true
        (Except.ok ⟨[], []⟩)).graph = some ⟨[], []⟩
    ∧ (buildOrLoad ["A"] true none StoredCell.missing true
        (Except.ok ⟨[], []⟩)).graphErr = none
    ∧ (buildOrLoad ["A"] true none StoredCell.missing true
        (Except.ok ⟨[], []⟩)).store = StoredCell.missing :=
  C4_store_failure_swallowed ["A"] true none StoredCell.missing ⟨[], []⟩
    (by decide) (Or.inl rfl)

/-- C5: with non-empty seeds, a forced build never consults the cache and
always runs the crawl; when the crawl succeeds and the store works, the
store is written afterward, overwriting the entry for the current
signature. -/
theorem C5_force_bypasses_load (seeds : List String) (prev : Option Graph)
    (cell : StoredCell) (storeFails : Bool)
    (crawl : Except (Option String) Graph) (g : Graph) (hne : seeds ≠ []) :
    (buildOrLoad seeds true prev cell storeFails crawl).cacheLoads = 0
    ∧ (buildOrLoad seeds true prev cell storeFails crawl).crawlCalls = 1
    ∧ (buildOrLoad seeds true prev cell false (Except.ok g)).storeAttempts = 1
    ∧ (buildOrLoad seeds true prev cell false (Except.ok g)).store
        = StoredCell.parsed (some (cacheSigOf seeds))
            (some ⟨some g.nodes, some g.links⟩) := by
  rw [buildOrLoad_of_ne_nil seeds true prev cell storeFails crawl hne,
    buildOrLoad_of_ne_nil seeds true prev cell false (Except.ok g) hne]
  refine ⟨?_, ?_, ?_, ?_⟩
  · cases crawl <;> simp [runCrawl]
  · cases crawl <;> simp [runCrawl]
  · simp [runCrawl]
  · simp [runCrawl, saveCache]

/-- Concrete instance of C5: a forced build over a warm cache skips the
load, crawls once, and overwrites the stored entry. -/
theorem C5_force_bypasses_load_witness :
    (buildOrLoad ["A"] true none StoredCell.missing false
        (Except.ok ⟨[⟨"A", "", 0⟩], []⟩)).cacheLoads = 0
    ∧ (buildOrLoad ["A"] true none StoredCell.missing false
        (Except.ok ⟨[⟨"A", "", 0⟩], []⟩)).crawlCalls = 1
    ∧ (buildOrLoad ["A"] true none StoredCell.missing false
        (Except.ok ⟨[⟨"A", "", 0⟩], []⟩)).storeAttempts = 1
    ∧ (buildOrLoad ["A"] true none StoredCell.missing false
        (Except.ok ⟨[⟨"A", "", 0⟩], []⟩)).store
        = StoredCell.parsed (some (cacheSigOf ["A"]))
            (some ⟨some [⟨"A", "", 0⟩], some []⟩) :=
  C5_force_bypasses_load ["A"] none StoredCell.missing false
    (Except.ok ⟨[⟨"A", "", 0⟩], []⟩) ⟨[⟨"A", "", 0⟩], []⟩ (by decide)

/-- C6 counterexample: with an empty seed list the build reports no error
but sets the graph state to `null` — it does NOT yield an (empty) Graph
value, contrary to the claim. -/
theorem C6_counterexample :
    (buildOrLoad [] false none StoredCell.missing false
        (Except.ok ⟨[], []⟩)).graphErr = none
    ∧ (buildOrLoad [] false none StoredCell.missing false
        (Except.ok ⟨[], []⟩)).graph = none
    ∧ (buildOrLoad [] false none StoredCell.missing false
        (Except.ok ⟨[], []⟩)).graph ≠ some ⟨[], []⟩ := by
  refine ⟨rfl, rfl, by decide⟩

/-- C6 amended: with an empty seed list the build completes without raising
any error and yields no graph: it clears the error state, sets the graph
state to `null` (not an empty Graph value), and neither consults the cache
nor invokes the crawler nor touches the store. -/
theorem C6_empty_seeds_null_graph_no_error (force : Bool)
    (prev : Option Graph) (cell : StoredCell) (storeFails : Bool)
    (crawl : Except (Option String) Graph) :
    (buildOrLoad [] force prev cell storeFails crawl).graphErr = none
    ∧ (buildOrLoad [] force prev cell storeFails crawl).graph = none
    ∧ (buildOrLoad [] force prev cell storeFails crawl).cacheLoads = 0
    ∧ (buildOrLoad [] force prev cell storeFails crawl).crawlCalls = 0
    ∧ (buildOrLoad [] force prev cell storeFails crawl).store = cell := by
  simp [buildOrLoad]

theorem buildOrLoad_hit (seeds : List String) (prevGraph : Option Graph)
    (store : StoredCell) (storeFails : Bool)
    (crawl : Except (Option String) Graph) (c : Graph) (hne : seeds ≠ [])
    (h : tryLoadCache store (cacheSigOf seeds) = some c) :
    buildOrLoad seeds false prevGraph store storeFails crawl =
      { graph := some c, graphErr := none, store := store,
        cacheLoads := 1, crawlCalls := 0, storeAttempts := 0 } := by
  rw [buildOrLoad_of_ne_nil seeds false prevGraph store storeFails crawl hne,
    if_neg (by simp), h]

theorem buildOrLoad_miss (seeds : List String) (prevGraph : Option Graph)
    (store : StoredCell) (storeFails : Bool)
    (crawl : Except (Option String) Graph) (hne : seeds ≠ [])
    (h : tryLoadCache store (cacheSigOf seeds) = none) :
    buildOrLoad seeds false prevGraph store storeFails crawl =
      runCrawl prevGraph store storeFails (cacheSigOf seeds) 1 crawl := by
  rw [buildOrLoad_of_ne_nil seeds false prevGraph store storeFails crawl hne,
    if_neg (by simp), h]

/-- C7: changing the seed set from `["A","B"]` to `["A","B","C"]` changes
the signature, so the entry stored for the two-seed set misses under the
three-seed signature and the three-seed build runs a fresh crawl instead of
reusing the stale two-seed graph. -/
theorem C7_seed_change_invalidates :
    cacheSigOf ["A", "B"] ≠ cacheSigOf ["A", "B", "C"]
    ∧ tryLoadCache
        (saveCache false StoredCell.missing (cacheSigOf ["A", "B"])
          ⟨[⟨"A", "", 0⟩, ⟨"B", "", 0⟩], []⟩)
        (cacheSigOf ["A", "B", "C"]) = none
    ∧ (buildOrLoad ["A", "B", "C"] false none
        (saveCache false StoredCell.missing (cacheSigOf ["A", "B"])
          ⟨[⟨"A", "", 0⟩, ⟨"B", "", 0⟩], []⟩)
        false
        (Except.ok ⟨[⟨"A", "", 0⟩, ⟨"B", "", 0⟩, ⟨"C", "", 0⟩], []⟩)).crawlCalls
        = 1
    ∧ (buildOrLoad ["A", "B", "C"] false none
        (saveCache false StoredCell.missing (cacheSigOf ["A", "B"])
          ⟨[⟨"A", "", 0⟩, ⟨"B", "", 0⟩], []⟩)
        false
        (Except.ok ⟨[⟨"A", "", 0⟩, ⟨"B", "", 0⟩, ⟨"C", "", 0⟩], []⟩)).graph
        = some ⟨[⟨"A", "", 0⟩, ⟨"B", "", 0⟩, ⟨"C", "", 0⟩], []⟩ := by
  refine ⟨by decide, by decide, by decide, by decide⟩

/-- C8: running `buildOrLoad` a second time with `force = false`, the same
seed list, a working store and the store cell left by a first successful
build is idempotent: the second run returns the same graph as the first,
never invokes the crawler (hence performs zero fetches), and leaves the
store cell unchanged.  This holds whether the first build hit the cache or
crawled and saved. -/
theorem C8_second_build_idempotent (seeds : List String)
    (prev prev2 : Option Graph) (cell : StoredCell) (g : Graph)
    (crawl2 : Except (Option String) Graph) :
    ((buildOrLoad seeds false prev2
        (buildOrLoad seeds false prev cell false (Except.ok g)).store
        false crawl2).graph
      = (buildOrLoad seeds false prev cell false (Except.ok g)).graph)
    ∧ (buildOrLoad seeds false prev2
        (buildOrLoad seeds false prev cell false (Except.ok g)).store
        false crawl2).crawlCalls = 0
    ∧ ((buildOrLoad seeds false prev2
        (buildOrLoad seeds false prev cell false (Except.ok g)).store
        false crawl2).store
      = (buildOrLoad seeds false prev cell false (Except.ok g)).store) := by
  by_cases hne : seeds = []
  · subst hne
    simp [buildOrLoad]
  · rcases h : tryLoadCache cell (cacheSigOf seeds) with _ | c
    · rw [buildOrLoad_miss seeds prev cell false (Except.ok g) hne h]
      simp only [runCrawl]
      rw [buildOrLoad_hit seeds prev2 _ false crawl2 g hne
        (tryLoadCache_saveCache cell (cacheSigOf seeds) g)]
      exact ⟨rfl, rfl, rfl⟩
    · rw [buildOrLoad_hit seeds prev cell false (Except.ok g) c hne h]
      simp only
      rw [buildOrLoad_hit seeds prev2 cell false crawl2 c hne h]
      exact ⟨rfl, rfl, rfl⟩

/-- C9: the signature is not injective on deduplicated seed sets: the
distinct sets `{"a|b"}` and `{"a","b"}` collide because the sorted
identifiers are joined with `"|"` which may occur inside an identifier, and
an entry stored under the signature of `{"a","b"}` is returned as a cache
hit when the current seed set is `{"a|b"}`. -/
theorem C9_signature_collision :
    signatureOf ["a|b"] = signatureOf ["a", "b"]
    ∧ ¬ (∀ x, x ∈ (["a|b"] : List String) ↔ x ∈ (["a", "b"] : List String))
    ∧ tryLoadCache
        (saveCache false StoredCell.missing (signatureOf ["a", "b"])
          ⟨[⟨"a", "", 0⟩], []⟩)
        (signatureOf ["a|b"]) = some ⟨[⟨"a", "", 0⟩], []⟩ := by
  refine ⟨by decide, ?_, by decide⟩
  intro h
  have ha : ("a" : String) ∈ (["a|b"] : List String) := (h "a").mpr (by simp)
  rw [List.mem_singleton] at ha
  exact absurd ha (by decide)

/-- C10: when the crawl actually runs (non-empty seeds, forced build or
cache miss) and fails, `saveCache` is never invoked, so the store cell is
left exactly as it was, and the failure is converted into the message shown
to the user (the embedding is a total function: nothing is re-thrown). -/
theorem C10_crawl_failure_leaves_cache (seeds : List String) (force : Bool)
    (prev : Option Graph) (cell : StoredCell) (storeFails : Bool)
    (m : Option String) (hne : seeds ≠ [])
    (hrun : force = true ∨ tryLoadCache cell (cacheSigOf seeds) = none) :
    (buildOrLoad seeds force prev cell storeFails (Except.error m)).store
        = cell
    ∧ (buildOrLoad seeds force prev cell storeFails
        (Except.error m)).storeAttempts = 0
    ∧ (buildOrLoad seeds force prev cell storeFails (Except.error m)).graphErr
        = some (displayMsg m) := by
  rw [buildOrLoad_of_ne_nil seeds force prev cell storeFails
    (Except.error m) hne]
  cases force with
  | true => simp [runCrawl]
  | false =>
    rcases hrun with hrun | hrun
    · exact absurd hrun (by simp)
    · rw [if_neg (by simp), hrun]
      simp [runCrawl]

/-- Concrete instance of C10: a failing crawl over an empty store leaves
the store empty, attempts no write, and reports the thrown message. -/
theorem C10_crawl_failure_leaves_cache_witness :
    (buildOrLoad ["A"] false none StoredCell.missing false
        (Except.error (some "boom"))).store = StoredCell.missing
    ∧ (buildOrLoad ["A"] false none StoredCell.missing false
        (Except.error (some "boom"))).storeAttempts = 0
    ∧ (buildOrLoad ["A"] false none StoredCell.missing false
        (Except.error (some "boom"))).graphErr
        = some (displayMsg (some "boom")) :=
  C10_crawl_failure_leaves_cache ["A"] false none StoredCell.missing false
    (some "boom") (by decide) (Or.inr rfl)
